import Mathlib

/-!
Shallow embedding of the wrpzap package (xmidt-org/wrpzap): a selective
structured-logging adapter that turns one WRP message into at most one
structured log record.  The embedding covers fields.go (the field-name
constants) and observer.go (the Observer and the field-extractor catalog).

External collaborators are modelled at their observable interface:
the wrp-go Message schema is a record of the attributes this package reads,
and the zap logging library is modelled by the Field values its
constructors build and by the single Log call the Observer makes.
-/

namespace Wrpzap

/-- The message type discriminant of the external wrp-go Message schema.
It is an enumeration carried as an integer ordinal and equipped with a
canonical human-readable rendering (its String method).  Since the
enumeration lives in the external wrp-go collaborator rather than in this
repository, it is modelled abstractly as the pair of its ordinal and its
canonical rendering. -/
structure MessageType where
  num : Int
  name : String
deriving DecidableEq, Repr

/-- The external wrp-go Message envelope, restricted to the attributes the
wrpzap package reads.  Go nilable slices and maps are modelled as Option
(none is the nil slice or nil map); the optional numeric attributes Status
and RequestDeliveryResponse are pointers in Go, hence Option Int.  The Go
field Type is spelled Typ because Type is reserved in Lean. -/
structure Message where
  Typ : MessageType
  Source : String
  Destination : String
  TransactionUUID : String
  ContentType : String
  Accept : String
  Status : Option Int
  RequestDeliveryResponse : Option Int
  Headers : Option (List String)
  Metadata : Option (List (String × String))
  Path : String
  Payload : Option (List Nat)
  ServiceName : String
  URL : String
  PartnerIDs : Option (List String)
  SessionID : String
  QualityOfService : Int
deriving DecidableEq, Repr

/-- The value carried by a zap Field, restricted to the shapes this package
produces: integers, strings, the explicit null of a nil numeric pointer,
string arrays, an opaque key/value mapping, binary blobs, and the rendering
of a Stringer. -/
inductive FieldValue where
  | intV (i : Int)
  | strV (s : String)
  | nullV
  | stringsV (xs : List String)
  | anyMapV (m : Option (List (String × String)))
  | binaryV (b : List Nat)
  | stringerV (s : String)
deriving DecidableEq, Repr

/-- A zap Field: a named structured value. -/
structure Field where
  key : String
  value : FieldValue
deriving DecidableEq, Repr

/-- zap.Int. -/
def zapInt (k : String) (i : Int) : Field := ⟨k, .intV i⟩

/-- zap.String. -/
def zapString (k : String) (s : String) : Field := ⟨k, .strV s⟩

/-- zap.Int64p: a nil pointer yields an explicit null field, a non-nil
pointer yields the pointed-to integer. -/
def zapInt64p (k : String) (v : Option Int) : Field :=
  match v with
  | none => ⟨k, .nullV⟩
  | some n => ⟨k, .intV n⟩

/-- zap.Strings: the array encoder iterates the slice, so a nil slice and
an empty slice both encode as the empty array. -/
def zapStrings (k : String) (xs : Option (List String)) : Field :=
  ⟨k, .stringsV (xs.getD [])⟩

/-- zap.Any applied to a map of strings: falls through the type switch to
reflection, which keeps the nil map distinct from the empty map. -/
def zapAny (k : String) (m : Option (List (String × String))) : Field :=
  ⟨k, .anyMapV m⟩

/-- zap.Binary: the encoder renders the byte slice, a nil slice rendering
the same as an empty one. -/
def zapBinary (k : String) (b : Option (List Nat)) : Field :=
  ⟨k, .binaryV (b.getD [])⟩

/-- zap.Stringer applied to a MessageType: carries the canonical String
rendering of the discriminant. -/
def zapStringer (k : String) (t : MessageType) : Field :=
  ⟨k, .stringerV t.name⟩

/-- Go len applied to a nilable byte slice: nil has length zero. -/
def goSliceLen (b : Option (List Nat)) : Nat := (b.getD []).length

/-- fields.go: the field-name constants. -/
def fMsgType : String := "msg_type"

def fSource : String := "source"

def fDestination : String := "dest"

def fTransactionUUID : String := "transaction_uuid"

def fContentType : String := "content_type"

def fAccept : String := "accept"

def fStatus : String := "status"

def fRequestDeliveryResponse : String := "rdr"

def fHeaders : String := "headers"

def fMetadata : String := "metadata"

def fPath : String := "path"

def fPayload : String := "payload"

def fPayloadSize : String := "payload_size"

def fServiceName : String := "service_name"

def fURL : String := "url"

def fPartnerIDs : String := "partner_ids"

def fSessionID : String := "session_id"

def fQualityOfService : String := "qos"

/-- FieldOpt is a function that returns a zap Field based on the message. -/
def FieldOpt : Type := Message → Field

/-- LogMessageTypeAsNum logs the message type as a number. -/
def LogMessageTypeAsNum : FieldOpt :=
  fun msg => zapInt fMsgType msg.Typ.num

/-- LogMessageType logs the message type as a number (delegates to the
as-num variant, exactly as in the source). -/
def LogMessageType : FieldOpt := LogMessageTypeAsNum

/-- LogMessageTypeAsString logs the message type as a string. -/
def LogMessageTypeAsString : FieldOpt :=
  fun msg => zapStringer fMsgType msg.Typ

/-- LogSource logs the source of the message. -/
def LogSource : FieldOpt :=
  fun msg => zapString fSource msg.Source

/-- LogDestination logs the destination of the message. -/
def LogDestination : FieldOpt :=
  fun msg => zapString fDestination msg.Destination

/-- LogTransactionUUID logs the transaction UUID of the message. -/
def LogTransactionUUID : FieldOpt :=
  fun msg => zapString fTransactionUUID msg.TransactionUUID

/-- LogContentType logs the content type of the message. -/
def LogContentType : FieldOpt :=
  fun msg => zapString fContentType msg.ContentType

/-- LogAccept logs the accept header of the message. -/
def LogAccept : FieldOpt :=
  fun msg => zapString fAccept msg.Accept

/-- LogStatus logs the status of the message. -/
def LogStatus : FieldOpt :=
  fun msg => zapInt64p fStatus msg.Status

/-- LogRequestDeliveryResponse logs the request delivery response of the
message. -/
def LogRequestDeliveryResponse : FieldOpt :=
  fun msg => zapInt64p fRequestDeliveryResponse msg.RequestDeliveryResponse

/-- LogHeaders logs the headers of the message. -/
def LogHeaders : FieldOpt :=
  fun msg => zapStrings fHeaders msg.Headers

/-- LogMetadata logs the metadata of the message. -/
def LogMetadata : FieldOpt :=
  fun msg => zapAny fMetadata msg.Metadata

/-- LogPath logs the path of the message. -/
def LogPath : FieldOpt :=
  fun msg => zapString fPath msg.Path

/-- LogPayload logs the payload of the message. -/
def LogPayload : FieldOpt :=
  fun msg => zapBinary fPayload msg.Payload

/-- LogPayloadSize logs the size of the payload of the message. -/
def LogPayloadSize : FieldOpt :=
  fun msg => zapInt fPayloadSize (goSliceLen msg.Payload)

/-- LogServiceName logs the service name of the message. -/
def LogServiceName : FieldOpt :=
  fun msg => zapString fServiceName msg.ServiceName

/-- LogURL logs the URL of the message. -/
def LogURL : FieldOpt :=
  fun msg => zapString fURL msg.URL

/-- LogPartnerIDs logs the partner IDs of the message. -/
def LogPartnerIDs : FieldOpt :=
  fun msg => zapStrings fPartnerIDs msg.PartnerIDs

/-- LogSessionID logs the session ID of the message. -/
def LogSessionID : FieldOpt :=
  fun msg => zapString fSessionID msg.SessionID

/-- LogQualityOfService logs the quality of service of the message. -/
def LogQualityOfService : FieldOpt :=
  fun msg => zapInt fQualityOfService msg.QualityOfService

/-- One record handed to the zap Logger by a single Log call: the severity
level, the message label, and the ordered field list. -/
structure Record where
  level : Int
  label : String
  fields : List Field
deriving DecidableEq, Repr

/-- The Observer of observer.go.  The Logger is a nilable pointer, modelled
as an Option of an opaque handle; Go function values are nilable, so each
entry of Fields is an Option FieldOpt. -/
structure Observer where
  Logger : Option Unit
  Level : Int
  Message : String
  Fields : List (Option FieldOpt)

/-- The extraction loop of ObserveWRP: invoke each configured FieldOpt on
the message in order, collecting the resulting fields.  Invoking a nil
function value in Go panics, modelled as the none outcome, which aborts the
loop and propagates. -/
def collectFields (msg : Message) : List (Option FieldOpt) → Option (List Field)
  | [] => some []
  | none :: _ => none
  | some f :: rest => (collectFields msg rest).map (fun tl => f msg :: tl)

/-- ObserveWRP of observer.go.  The result is the list of records emitted
to the Logger (their observable effect), with none standing for a panic:
a nil Logger returns immediately emitting nothing; otherwise every
configured extractor is run in order and one Log call carries all the
resulting fields. -/
def Observer.ObserveWRP (ob : Observer) (msg : Wrpzap.Message) : Option (List Record) :=
  match ob.Logger with
  | none => some []
  | some _ =>
    match collectFields msg ob.Fields with
    | none => none
    | some fields => some [⟨ob.Level, ob.Message, fields⟩]

/-- The full extractor catalog: every FieldOpt built by a Log factory of
observer.go. -/
def catalog : List FieldOpt :=
  [LogMessageType, LogMessageTypeAsString, LogMessageTypeAsNum,
   LogSource, LogDestination, LogTransactionUUID, LogContentType,
   LogAccept, LogStatus, LogRequestDeliveryResponse, LogHeaders,
   LogMetadata, LogPath, LogPayload, LogPayloadSize, LogServiceName,
   LogURL, LogPartnerIDs, LogSessionID, LogQualityOfService]

/-- A concrete sample message used to instantiate theorems with hypotheses. -/
def exMsg : Message :=
  { Typ := ⟨3, "SimpleRequestResponse"⟩, Source := "s", Destination := "d",
    TransactionUUID := "t", ContentType := "c", Accept := "a",
    Status := some 123, RequestDeliveryResponse := none,
    Headers := some ["h1", "h2"], Metadata := some [("k", "v")],
    Path := "p", Payload := some [116, 101], ServiceName := "svc",
    URL := "u", PartnerIDs := some [], SessionID := "sess",
    QualityOfService := 24 }

/-- The sample message with an empty, non-nil payload. -/
def exMsgEmptyPayload : Message := { exMsg with Payload := some [] }

/-- The sample message with a nil payload. -/
def exMsgNilPayload : Message := { exMsg with Payload := none }

/-- A concrete observer configured with a duplicated extractor. -/
def obsDup : Observer :=
  { Logger := some (), Level := 0, Message := "m",
    Fields := [some LogSource, some LogSource] }

/-- The headers and partner-ids scenario message of the specification. -/
def msgHeadersScenario : Message :=
  { exMsg with Headers := some ["h1", "h2"], PartnerIDs := some [] }

/-- The headers and partner-ids scenario observer of the specification. -/
def obsHeadersScenario : Observer :=
  { Logger := some (), Level := 0, Message := "m",
    Fields := [some LogHeaders, some LogPartnerIDs] }

/-- A concrete observer whose field list contains a nil function value. -/
def obsNilField : Observer :=
  { Logger := some (), Level := 0, Message := "m", Fields := [none] }

/-- The key of a zap.Int64p field is the given key in both branches. -/
theorem zapInt64p_key (k : String) (v : Option Int) : (zapInt64p k v).key = k := by
  cases v <;> rfl

/-- The extraction loop over a list of non-nil extractors runs every one of
them, in order, and collects exactly their fields. -/
theorem collectFields_map_some (msg : Message) (fs : List FieldOpt) :
    collectFields msg (fs.map Option.some) = some (fs.map (fun f => f msg)) := by
  induction fs with
  | nil => rfl
  | cons f rest ih => simp [collectFields, ih]

/-- A nil entry anywhere in the extractor list makes the extraction loop
panic. -/
theorem collectFields_none_mem (msg : Message) (l : List (Option FieldOpt))
    (h : none ∈ l) : collectFields msg l = none := by
  induction l with
  | nil => cases h
  | cons x rest ih =>
    cases x with
    | none => rfl
    | some f =>
      cases h with
      | tail _ h2 => simp [collectFields, ih h2]

/-- C1: For every Observer with a non-nil Logger and an ordered list of N
configured (non-nil) extractors, and for every Message m, ObserveWRP emits
exactly one record, tagged with the configured level and label, whose field
list is exactly the N fields produced by the extractors in configured
order, duplicates included and nothing filtered out. -/
theorem observeWRP_emits_exactly_one_record (ob : Observer) (u : Unit)
    (fs : List FieldOpt) (hL : ob.Logger = some u)
    (hF : ob.Fields = fs.map Option.some) (m : Message) :
    ob.ObserveWRP m = some [⟨ob.Level, ob.Message, fs.map (fun f => f m)⟩] ∧
    (fs.map (fun f => f m)).length = fs.length := by
  constructor
  · simp [Observer.ObserveWRP, hL, hF, collectFields_map_some]
  · simp

/-- C1 witness: a concrete observer with two (duplicate) extractors emits
one record with exactly those two fields in order. -/
theorem observeWRP_emits_exactly_one_record_witness :
    obsDup.ObserveWRP exMsg =
      some [⟨0, "m", [LogSource exMsg, LogSource exMsg]⟩] ∧
    ([LogSource exMsg, LogSource exMsg] : List Field).length = 2 := by
  have h := observeWRP_emits_exactly_one_record obsDup ()
    [LogSource, LogSource] rfl rfl exMsg
  exact ⟨h.1, rfl⟩

/-- C2: For every Observer whose Logger is nil and every Message m,
ObserveWRP emits zero records and returns normally (no panic, no error):
absence of the target is a normal operating mode. -/
theorem observeWRP_nil_logger_noop (ob : Observer) (hL : ob.Logger = none)
    (m : Message) : ob.ObserveWRP m = some [] := by
  simp [Observer.ObserveWRP, hL]

/-- C2 witness: a concrete disabled observer emits zero records. -/
theorem observeWRP_nil_logger_noop_witness :
    (Observer.mk none 0 "m" [some LogSource]).ObserveWRP exMsg = some [] :=
  observeWRP_nil_logger_noop (Observer.mk none 0 "m" [some LogSource]) rfl exMsg

/-- C3: Every extractor produces exactly the field name of the stable
public contract, bit-exact, for every Message. -/
theorem field_names_stable_contract (m : Message) :
    (LogMessageType m).key = "msg_type" ∧
    (LogMessageTypeAsString m).key = "msg_type" ∧
    (LogMessageTypeAsNum m).key = "msg_type" ∧
    (LogSource m).key = "source" ∧
    (LogDestination m).key = "dest" ∧
    (LogTransactionUUID m).key = "transaction_uuid" ∧
    (LogContentType m).key = "content_type" ∧
    (LogAccept m).key = "accept" ∧
    (LogStatus m).key = "status" ∧
    (LogRequestDeliveryResponse m).key = "rdr" ∧
    (LogHeaders m).key = "headers" ∧
    (LogMetadata m).key = "metadata" ∧
    (LogPath m).key = "path" ∧
    (LogPayload m).key = "payload" ∧
    (LogPayloadSize m).key = "payload_size" ∧
    (LogServiceName m).key = "service_name" ∧
    (LogURL m).key = "url" ∧
    (LogPartnerIDs m).key = "partner_ids" ∧
    (LogSessionID m).key = "session_id" ∧
    (LogQualityOfService m).key = "qos" :=
  ⟨rfl, rfl, rfl, rfl, rfl, rfl, rfl, rfl,
   zapInt64p_key fStatus m.Status,
   zapInt64p_key fRequestDeliveryResponse m.RequestDeliveryResponse,
   rfl, rfl, rfl, rfl, rfl, rfl, rfl, rfl, rfl, rfl⟩

/-- C4: The status and delivery-response extractors preserve the
null/non-null distinction: a nil source attribute yields a
present-but-null field value, and a non-nil one yields exactly that
numeric value. -/
theorem optional_fields_preserve_null (m : Message) :
    (m.Status = none → LogStatus m = ⟨fStatus, .nullV⟩) ∧
    (∀ v : Int, m.Status = some v → LogStatus m = ⟨fStatus, .intV v⟩) ∧
    (m.RequestDeliveryResponse = none →
      LogRequestDeliveryResponse m = ⟨fRequestDeliveryResponse, .nullV⟩) ∧
    (∀ v : Int, m.RequestDeliveryResponse = some v →
      LogRequestDeliveryResponse m = ⟨fRequestDeliveryResponse, .intV v⟩) := by
  refine ⟨fun h => ?_, fun v h => ?_, fun h => ?_, fun v h => ?_⟩ <;>
    simp [LogStatus, LogRequestDeliveryResponse, zapInt64p, h]

/-- C4 witness: on the sample message, status 123 is logged exactly and
the nil delivery response is logged as a present-but-null value. -/
theorem optional_fields_preserve_null_witness :
    LogStatus exMsg = ⟨fStatus, .intV 123⟩ ∧
    LogRequestDeliveryResponse exMsg = ⟨fRequestDeliveryResponse, .nullV⟩ :=
  ⟨(optional_fields_preserve_null exMsg).2.1 123 rfl,
   (optional_fields_preserve_null exMsg).2.2.1 rfl⟩

/-- C5: For every Message, the payload-size extractor yields exactly the
byte length of the blob the payload extractor logs, and 0 when the payload
is empty or absent. -/
theorem payload_size_is_byte_length (m : Message) :
    ∃ b : List Nat, LogPayload m = ⟨fPayload, .binaryV b⟩ ∧
      LogPayloadSize m = ⟨fPayloadSize, .intV (b.length : Int)⟩ ∧
      ((m.Payload = none ∨ m.Payload = some []) →
        LogPayloadSize m = ⟨fPayloadSize, .intV 0⟩) := by
  refine ⟨m.Payload.getD [], rfl, rfl, fun h => ?_⟩
  rcases h with h | h <;> simp [LogPayloadSize, zapInt, goSliceLen, h]

/-- C5 witness: on the sample message with an empty payload, payload size
is 0. -/
theorem payload_size_is_byte_length_witness :
    LogPayloadSize exMsgEmptyPayload = ⟨fPayloadSize, .intV 0⟩ := by
  obtain ⟨b, _, _, h⟩ := payload_size_is_byte_length exMsgEmptyPayload
  exact h (Or.inr rfl)

/-- C6: The as-num variant logs the raw integer ordinal of the type
discriminant, the as-string variant logs its canonical rendering under the
same field name, and the default LogMessageType agrees with the as-num
variant on every Message. -/
theorem message_type_variants (m : Message) :
    LogMessageType m = LogMessageTypeAsNum m ∧
    LogMessageTypeAsNum m = ⟨fMsgType, .intV m.Typ.num⟩ ∧
    LogMessageTypeAsString m = ⟨fMsgType, .stringerV m.Typ.name⟩ :=
  ⟨rfl, rfl, rfl⟩

/-- C7: Every extractor in the catalog, invoked through the extraction
loop, always succeeds (never the panic outcome) and yields exactly one
field, and is deterministic: equal messages give equal fields.  Totality
itself is witnessed by the embedding: each extractor is a total function
from Message to Field. -/
theorem catalog_extractors_total_pure (m : Message) :
    ∀ E ∈ catalog, collectFields m [some E] = some [E m] ∧
      ∀ m2 : Message, m2 = m → E m2 = E m := by
  intro E _
  exact ⟨rfl, fun m2 h => by rw [h]⟩

/-- C7 witness: the source extractor, a catalog member, never panics on the
sample message. -/
theorem catalog_extractors_total_pure_witness :
    collectFields exMsg [some LogSource] = some [LogSource exMsg] :=
  (catalog_extractors_total_pure exMsg LogSource (by simp [catalog])).1

/-- C8: The headers, partner-ids, and metadata extractors serialize empty
containers as empty, never as absence; in particular the configured
observer of the specification scenario emits one record with headers
h1, h2 and an empty (present) partner-ids array. -/
theorem empty_containers_not_absence (m : Message) :
    (∀ hs : List String, m.Headers = some hs →
      LogHeaders m = ⟨fHeaders, .stringsV hs⟩) ∧
    (∀ ps : List String, m.PartnerIDs = some ps →
      LogPartnerIDs m = ⟨fPartnerIDs, .stringsV ps⟩) ∧
    (m.Metadata = some [] → LogMetadata m = ⟨fMetadata, .anyMapV (some [])⟩) ∧
    obsHeadersScenario.ObserveWRP msgHeadersScenario =
      some [⟨0, "m", [⟨fHeaders, .stringsV ["h1", "h2"]⟩,
                      ⟨fPartnerIDs, .stringsV []⟩]⟩] := by
  refine ⟨fun hs h => ?_, fun ps h => ?_, fun h => ?_, rfl⟩ <;>
    simp [LogHeaders, LogPartnerIDs, LogMetadata, zapStrings, zapAny, h]

/-- C8 witness: on the scenario message, the empty partner-ids list is
logged as an empty (present) array. -/
theorem empty_containers_not_absence_witness :
    LogPartnerIDs msgHeadersScenario = ⟨fPartnerIDs, .stringsV []⟩ :=
  (empty_containers_not_absence msgHeadersScenario).2.1 [] rfl

/-- C9: For an Observer with a non-nil Logger whose field list contains a
nil FieldOpt, ObserveWRP panics on every message: the never-fails contract
holds only when all configured extractors are non-nil. -/
theorem nil_fieldopt_panics (ob : Observer) (u : Unit) (m : Message)
    (hL : ob.Logger = some u) (hN : none ∈ ob.Fields) :
    ob.ObserveWRP m = none := by
  simp [Observer.ObserveWRP, hL, collectFields_none_mem m ob.Fields hN]

/-- C9 witness: a concrete observer with a nil extractor entry panics on
the sample message. -/
theorem nil_fieldopt_panics_witness : obsNilField.ObserveWRP exMsg = none :=
  nil_fieldopt_panics obsNilField () exMsg rfl (by simp [obsNilField])

/-- C10: A nil payload is indistinguishable from an empty payload: the
payload extractor logs an empty blob and the size extractor logs 0, and
both agree exactly with their output on the same message with an empty
non-nil payload. -/
theorem nil_payload_indistinguishable_from_empty (m : Message)
    (h : m.Payload = none) :
    LogPayload m = ⟨fPayload, .binaryV []⟩ ∧
    LogPayloadSize m = ⟨fPayloadSize, .intV 0⟩ ∧
    LogPayload m = LogPayload { m with Payload := some [] } ∧
    LogPayloadSize m = LogPayloadSize { m with Payload := some [] } := by
  refine ⟨?_, ?_, ?_, ?_⟩ <;>
    simp [LogPayload, LogPayloadSize, zapBinary, zapInt, goSliceLen, h]

/-- C10 witness: the sample message with a nil payload logs payload size 0
and an empty blob. -/
theorem nil_payload_indistinguishable_from_empty_witness :
    LogPayload exMsgNilPayload = ⟨fPayload, .binaryV []⟩ ∧
    LogPayloadSize exMsgNilPayload = ⟨fPayloadSize, .intV 0⟩ :=
  ⟨(nil_payload_indistinguishable_from_empty exMsgNilPayload rfl).1,
   (nil_payload_indistinguishable_from_empty exMsgNilPayload rfl).2.1⟩

end Wrpzap
